import Mathlib

/-!
Verification development for the knighthacks2025 backend.

Embedded here:
* the `/simulate-flow` sequence of `src/main.py` (`simulate_flow`,
  session-id extraction, per-step error recording, final status);
* the module-level roster construction of `src/multi-persona-agent/agent.py`
  (`PERSONA_TYPE_COUNTS`, the persona-id loop, the per-persona reseeded
  random generator);
* the Allocator and Wave Scheduler contracts of the specification (the
  repository source only contains the fixed count table and a single
  parallel batch, so those two components are modelled from the spec).
-/

/-- JSON-like values as returned by the target service and handled by
`simulate_flow` in src/main.py.  Numbers are modelled as integers (the
session-id probing and the truthiness tests of the claims only involve
integer scalars); objects are association lists in key-insertion order,
mirroring Python dicts. -/
inductive Json where
  | null : Json
  | bool (b : Bool) : Json
  | num (n : Int) : Json
  | str (s : String) : Json
  | arr (elems : List Json) : Json
  | obj (fields : List (String × Json)) : Json

/-- Python truthiness of a JSON value: `None`, `False`, `0`, `""`, `[]` and
`{}` are falsy, everything else truthy. -/
def isTruthy : Json → Bool
  | Json.null => false
  | Json.bool b => b
  | Json.num n => n != 0
  | Json.str s => s != ""
  | Json.arr elems => !elems.isEmpty
  | Json.obj fields => !fields.isEmpty

/-- Python `a or b`: `a` when truthy, else `b`. -/
def pyOr (a b : Json) : Json := if isTruthy a then a else b

/-- Python `d.get(k)` on a dict, with a missing key giving `None`
(`Json.null`); on a non-dict receiver the source raises `AttributeError`,
modelled as `Except.error ()`. -/
def pyGetE : Json → String → Except Unit Json
  | Json.obj fields, k => Except.ok ((fields.lookup k).getD Json.null)
  | _, _ => Except.error ()

/-- Total variant of `pyGetE` used for stating properties: dict lookup with
`Json.null` for a missing key or a non-dict receiver. -/
def pyGet : Json → String → Json
  | Json.obj fields, k => (fields.lookup k).getD Json.null
  | _, _ => Json.null

/-- The five calls issued by `simulate_flow` (src/main.py lines 187-285). -/
inductive Step where
  | createSession : Step
  | evalSets : Step
  | evalResults : Step
  | listSessions : Step
  | runSse : Step
deriving DecidableEq

/-- One HTTP attempt made by `simulate_flow`: the step and, for POST
requests, the JSON body sent. -/
structure Attempt where
  step : Step
  body : Option Json

/-- Session-id extraction of src/main.py lines 206-213:

    session_id = (create_json.get("session_id")
      or create_json.get("sessionId") or create_json.get("id")
      or (create_json.get("session") or \x7b\x7d).get("id")
      or "default-session")

with Python short-circuit `or` over truthiness; a `.get` on a non-dict
receiver raises `AttributeError` (`Except.error ()`). -/
def extract_session_id (create_json : Json) : Except Unit Json :=
  match pyGetE create_json "session_id" with
  | Except.error u => Except.error u
  | Except.ok a =>
    if isTruthy a then Except.ok a else
    match pyGetE create_json "sessionId" with
    | Except.error u => Except.error u
    | Except.ok b =>
      if isTruthy b then Except.ok b else
      match pyGetE create_json "id" with
      | Except.error u => Except.error u
      | Except.ok c =>
        if isTruthy c then Except.ok c else
        match pyGetE create_json "session" with
        | Except.error u => Except.error u
        | Except.ok s =>
          match pyGetE (pyOr s (Json.obj [])) "id" with
          | Except.error u => Except.error u
          | Except.ok d =>
            if isTruthy d then Except.ok d
            else Except.ok (Json.str "default-session")

/-- The extraction chain as a function of the four looked-up values; for an
object-shaped response `extract_session_id` is definitionally this chain
applied to the lookups (`extract_session_id_obj`). -/
def extractVals (a b c s : Json) : Except Unit Json :=
  if isTruthy a then Except.ok a else
  if isTruthy b then Except.ok b else
  if isTruthy c then Except.ok c else
  match pyGetE (pyOr s (Json.obj [])) "id" with
  | Except.error u => Except.error u
  | Except.ok d =>
    if isTruthy d then Except.ok d
    else Except.ok (Json.str "default-session")

/-- Modelled from the spec (section 4.6 item 1): extraction checks, in
order, the keys `session_id`, `sessionId`, `id`, then nested `session.id`,
and falls back to the fixed default identifier when none yields a value. -/
def spec_extract_session_id (create_json : Json) : Json :=
  match [pyGet create_json "session_id", pyGet create_json "sessionId",
         pyGet create_json "id",
         pyGet (pyGet create_json "session") "id"].find? isTruthy with
  | some v => v
  | none => Json.str "default-session"

/-- Python `results.setdefault(k, v)` on the ordered results dict: append
`(k, v)` only when the key is absent. -/
def setdefault (l : List (String × Json)) (k : String) (v : Json) :
    List (String × Json) :=
  if (l.lookup k).isSome then l else l ++ [(k, v)]

/-- The `default_new_message` literal of src/main.py lines 258-261. -/
def default_new_message : Json :=
  Json.obj [("parts", Json.arr [Json.obj [("text", Json.str "Hello from simulate_flow")]]),
            ("role", Json.str "user")]

/-- The `/simulate-flow` sequence of src/main.py lines 185-289.

`env` gives, per step, either the decoded response body (`_safe_json`
applied, so responses never raise) or the text of the exception raised by
the HTTP call.  `new_message` is `payload.new_message` (absent when no
payload was supplied or its `new_message` field was `None`), `streaming`
likewise.  The result is the ordered `results` dict plus the list of
attempts actually issued; `Except.error ()` is the `AttributeError` escaping
from the session-id extraction. -/
def simulate_flow (env : Step → Except String Json)
    (new_message : Option Json) (streaming : Option Bool)
    (app_name user_id : String) :
    Except Unit (List (String × Json) × List Attempt) :=
  match env Step.createSession with
  | Except.error e =>
      Except.ok ([("create_session_error", Json.str e),
                  ("status", Json.str "partial_failure")],
                 [Attempt.mk Step.createSession (some (Json.obj []))])
  | Except.ok j =>
      match extract_session_id (pyOr j (Json.obj [])) with
      | Except.error u => Except.error u
      | Except.ok session_id =>
        let step2 : List (String × Json) :=
          match env Step.evalSets with
          | Except.ok r => [("eval_sets", r)]
          | Except.error e => [("eval_sets_error", Json.str e)]
        let step3 : List (String × Json) :=
          match env Step.evalResults with
          | Except.ok r => [("eval_results", r)]
          | Except.error e => [("eval_results_error", Json.str e)]
        let step4 : List (String × Json) :=
          match env Step.listSessions with
          | Except.ok r => [("list_sessions", r)]
          | Except.error e => [("list_sessions_error", Json.str e)]
        let chosen_new_message : Json :=
          match new_message with
          | some m => if isTruthy m then m else default_new_message
          | none => default_new_message
        let run_payload : Json :=
          Json.obj [("appName", Json.str app_name),
                    ("userId", Json.str user_id),
                    ("sessionId", session_id),
                    ("newMessage", chosen_new_message),
                    ("streaming", Json.bool (match streaming with
                      | some b => b
                      | none => false))]
        let step5 : List (String × Json) :=
          match env Step.runSse with
          | Except.ok r => [("run_sse", r)]
          | Except.error e => [("run_sse_error", Json.str e)]
        let results := [("create_session", j)] ++ step2 ++ step3 ++ step4 ++ step5
        Except.ok (setdefault results "status" (Json.str "ok"),
                   [Attempt.mk Step.createSession (some (Json.obj [])),
                    Attempt.mk Step.evalSets none,
                    Attempt.mk Step.evalResults none,
                    Attempt.mk Step.listSessions none,
                    Attempt.mk Step.runSse (some run_payload)])

/-- Removal of every binding of a key from an object's field list (for
stating that a falsy candidate behaves as if the key were absent). -/
def eraseKey (k : String) (fields : List (String × Json)) :
    List (String × Json) :=
  fields.filter (fun p => p.1 != k)

/-- Modelled from the spec (section 4.1): stable insertion of an
(input-position, remainder) pair into a list sorted by remainder
descending — a new element goes after every element whose remainder is at
least as large, so ties are broken by input order. -/
def insertDesc (x : ℕ × ℚ) : List (ℕ × ℚ) → List (ℕ × ℚ)
  | [] => [x]
  | y :: ys => if y.2 < x.2 then x :: y :: ys else y :: insertDesc x ys

/-- Modelled from the spec (section 4.1): stable sort by remainder
descending, inserting the pairs in input order. -/
def sortDesc (l : List (ℕ × ℚ)) : List (ℕ × ℚ) :=
  l.foldl (fun acc x => insertDesc x acc) []

/-- Modelled from the spec (section 4.1 step 4): increment the count at
each selected input position by one unit. -/
def incrByOne (selected : List ℕ) (cs : List ℕ) : List ℕ :=
  selected.foldl (fun cs i => cs.set i (cs.getD i 0 + 1)) cs

/-- Modelled from the spec (section 4.1, largest-remainder allocation;
the repository source only ships the fixed table `PERSONA_TYPE_COUNTS`, so
the Allocator is modelled from the spec's algorithm): floor the exact
shares, then hand the `total - allocated` leftover units to the categories
with the largest fractional remainders, ties broken by input order. -/
def allocate (cats : List (String × ℚ)) (total : ℕ) : List (String × ℕ) :=
  let exacts : List ℚ := cats.map (fun c => (total : ℚ) * c.2)
  let floors : List ℕ := exacts.map (fun e => (⌊e⌋).toNat)
  let remaining : ℕ := total - floors.sum
  let rems : List ℚ := exacts.map (fun e => e - ((⌊e⌋).toNat : ℚ))
  let sorted := sortDesc ((List.range cats.length).zip rems)
  let selected := (sorted.take remaining).map Prod.fst
  (cats.map Prod.fst).zip (incrByOne selected floors)

/-- Modelled from the spec (section 4.3): wave partition with an explicit
fuel argument (the input length) so that the recursion is structural. -/
def chunksGo (w : ℕ) : ℕ → List α → List (List α)
  | _, [] => []
  | 0, _ :: _ => []
  | fuel + 1, x :: xs => (x :: xs).take w :: chunksGo w fuel ((x :: xs).drop w)

/-- Modelled from the spec (section 4.3, Wave Scheduler; the repository
source only instantiates the degenerate single-wave mode via one
`ParallelAgent`): partition an ordered unit list into consecutive waves of
`w` units (the final wave possibly shorter). -/
def chunks (w : ℕ) (l : List α) : List (List α) :=
  chunksGo w l.length l

/-- Persona identifier of src/multi-persona-agent/agent.py line 97:
`persona_id = f"..."` concatenating the type, an underscore and the 1-based
index. -/
def segment_id (ptype : String) (i : ℕ) : String :=
  ptype ++ "_" ++ toString i

/-- The roster-building loop of src/multi-persona-agent/agent.py lines
94-99 (projected to the `personaId` field of the appended descriptors),
parameterized over the count table; the source instantiates it at
`PERSONA_TYPE_COUNTS`.  For each `(ptype, count)` entry in table order it
appends the ids `ptype_1 .. ptype_count`. -/
def buildRoster (plan : List (String × ℕ)) : List String :=
  plan.foldl
    (fun acc pc => acc ++ (List.range' 1 pc.2).map (fun i => segment_id pc.1 i))
    []

/-- The hard-coded persona count table of src/multi-persona-agent/agent.py
lines 55-68, in source (dict-insertion) order. -/
def PERSONA_TYPE_COUNTS : List (String × ℕ) :=
  [("the_planner", 5), ("the_skeptic", 5), ("the_altruist", 4),
   ("resource_constrained", 4), ("the_elderly", 4), ("family_first", 4),
   ("information_seeker", 4), ("community_leader", 4), ("tech_savvy", 4),
   ("the_traditional", 4), ("the_optimist", 4), ("the_anxious", 4)]

/-- The persona ids of the module-level `roster` of
src/multi-persona-agent/agent.py. -/
def roster_ids : List String :=
  buildRoster PERSONA_TYPE_COUNTS

/-- Value of one lowercase hex digit, as Python `int(s, 16)` reads it. -/
def hexVal (c : Char) : ℕ :=
  if c = '0' then 0 else if c = '1' then 1 else if c = '2' then 2
  else if c = '3' then 3 else if c = '4' then 4 else if c = '5' then 5
  else if c = '6' then 6 else if c = '7' then 7 else if c = '8' then 8
  else if c = '9' then 9 else if c = 'a' then 10 else if c = 'b' then 11
  else if c = 'c' then 12 else if c = 'd' then 13 else if c = 'e' then 14
  else 15

/-- Python `int(s, 16)` on a lowercase hex string. -/
def natOfHex (s : String) : ℕ :=
  s.foldl (fun n c => n * 16 + hexVal c) 0

/-- The seeding helper `_rand_for` of src/multi-persona-agent/agent.py
lines 87-90: the SHA-256 hex digest of the persona id, truncated to its
first 16 hex characters and read as an integer.  The hash itself is an
external primitive, passed in as `sha256hex`. -/
def _rand_for (sha256hex : String → String) (persona_id : String) : ℕ :=
  natOfHex ((sha256hex persona_id).take 16)

/-- Attribute generation for a single persona id as performed inside the
roster loop (src/multi-persona-agent/agent.py lines 99-163): construct a
fresh generator from the id's seed (`init`) and sample the demographics
from it (`sample`, returning the attributes and the final generator
state, which the loop discards). -/
def attributesFor {σ α : Type} (sha256hex : String → String)
    (init : ℕ → σ) (sample : σ → α × σ) (persona_id : String) : α :=
  (sample (init (_rand_for sha256hex persona_id))).1

/-- The roster loop of src/multi-persona-agent/agent.py lines 94-183,
with the random-generator lifecycle made explicit: each iteration builds
the persona id, reseeds a fresh generator from it (`rnd = _rand_for(...)`),
samples the attributes, and discards the generator state — no generator
state flows from one descriptor to the next. -/
def rosterAttrs {σ α : Type} (sha256hex : String → String)
    (init : ℕ → σ) (sample : σ → α × σ)
    (plan : List (String × ℕ)) : List (String × α) :=
  plan.foldl
    (fun acc pc => acc ++ (List.range' 1 pc.2).map (fun i =>
      let persona_id := segment_id pc.1 i
      let rnd := init (_rand_for sha256hex persona_id)
      let sampled := sample rnd
      (persona_id, sampled.1)))
    []

/-- Concrete environment: all five calls succeed, session creation
returning an object whose `id` is "sess-42". -/
def envOK : Step → Except String Json
  | Step.createSession => Except.ok (Json.obj [("id", Json.str "sess-42")])
  | _ => Except.ok (Json.obj [("ok", Json.bool true)])

/-- Concrete environment: session creation succeeds, step 2 (list eval
sets) raises, the remaining calls succeed. -/
def envC3 : Step → Except String Json
  | Step.createSession => Except.ok (Json.obj [("id", Json.str "sess-42")])
  | Step.evalSets => Except.error "connection refused"
  | _ => Except.ok (Json.obj [("ok", Json.bool true)])

/-- Concrete environment: session creation raises a connection error. -/
def envErr : Step → Except String Json
  | Step.createSession => Except.error "connection error"
  | _ => Except.ok Json.null

theorem pyGet_obj (fs : List (String × Json)) (k : String) :
    pyGet (Json.obj fs) k = (fs.lookup k).getD Json.null := rfl

theorem extract_session_id_obj (fs : List (String × Json)) :
    extract_session_id (Json.obj fs)
      = extractVals (pyGet (Json.obj fs) "session_id") (pyGet (Json.obj fs) "sessionId")
          (pyGet (Json.obj fs) "id") (pyGet (Json.obj fs) "session") := rfl

theorem extractVals_eq_spec (a b c s : Json)
    (hs : isTruthy s = false ∨ ∃ gs, s = Json.obj gs) :
    extractVals a b c s = Except.ok (match [a, b, c, pyGet s "id"].find? isTruthy with
      | some v => v
      | none => Json.str "default-session") := by
  by_cases ha : isTruthy a
  · simp [extractVals, List.find?, ha]
  · by_cases hb : isTruthy b
    · simp [extractVals, List.find?, ha, hb]
    · by_cases hc : isTruthy c
      · simp [extractVals, List.find?, ha, hb, hc]
      · rcases hs with hf | ⟨gs, rfl⟩
        · cases s <;>
            simp_all [extractVals, List.find?, isTruthy, pyGet, pyGetE, pyOr,
              List.lookup, List.isEmpty] <;>
            rename_i xs <;> cases xs <;> simp_all [List.lookup]
        · have hor : pyOr (Json.obj gs) (Json.obj []) = Json.obj gs := by
            by_cases hg : isTruthy (Json.obj gs)
            · simp [pyOr, hg]
            · have hnil : gs = [] := by
                cases gs
                · rfl
                · simp [isTruthy] at hg
              subst hnil
              rfl
          cases hd : isTruthy ((gs.lookup "id").getD Json.null) <;>
            simp [extractVals, List.find?, ha, hb, hc, hor, pyGetE, pyGet, hd]

theorem lookup_eraseKey_self (k : String) (fs : List (String × Json)) :
    (eraseKey k fs).lookup k = none := by
  induction fs with
  | nil => rfl
  | cons p fs ih =>
    rcases p with ⟨a, v⟩
    by_cases h : a = k
    · subst h
      simpa [eraseKey, List.filter_cons] using ih
    · have h1 : (a != k) = true := by simp [bne, h]
      have h2 : (k == a) = false := by
        simp [Ne.symm h]
      simp only [eraseKey, List.filter_cons, h1, if_pos] at ih ⊢
      simp [List.lookup, h2]
      simpa [eraseKey] using ih

theorem lookup_eraseKey_ne (k k' : String) (h : k' ≠ k) (fs : List (String × Json)) :
    (eraseKey k fs).lookup k' = fs.lookup k' := by
  induction fs with
  | nil => rfl
  | cons p fs ih =>
    rcases p with ⟨a, v⟩
    by_cases ha : a = k
    · subst ha
      have h1 : (a != a) = false := by simp
      have h2 : (k' == a) = false := by simp [h]
      simp [eraseKey, List.filter_cons, h1, List.lookup, h2]
      simpa [eraseKey] using ih
    · have h1 : (a != k) = true := by simp [bne, ha]
      simp only [eraseKey, List.filter_cons, h1, if_pos]
      simp [List.lookup]
      cases hk : k' == a
      · simpa [eraseKey] using ih
      · rfl

theorem pyGet_eraseKey_self (k : String) (fs : List (String × Json)) :
    pyGet (Json.obj (eraseKey k fs)) k = Json.null := by
  rw [pyGet_obj, lookup_eraseKey_self]
  rfl

theorem pyGet_eraseKey_ne (k k' : String) (h : k' ≠ k) (fs : List (String × Json)) :
    pyGet (Json.obj (eraseKey k fs)) k' = pyGet (Json.obj fs) k' := by
  rw [pyGet_obj, pyGet_obj, lookup_eraseKey_ne k k' h]

theorem extractVals_congr_a {a a2 : Json} (b c s : Json)
    (ha : isTruthy a = false) (ha2 : isTruthy a2 = false) :
    extractVals a b c s = extractVals a2 b c s := by
  simp [extractVals, ha, ha2]

theorem extractVals_congr_b {b b2 : Json} (a c s : Json)
    (hb : isTruthy b = false) (hb2 : isTruthy b2 = false) :
    extractVals a b c s = extractVals a b2 c s := by
  simp [extractVals, hb, hb2]

theorem extractVals_congr_c {c c2 : Json} (a b s : Json)
    (hc : isTruthy c = false) (hc2 : isTruthy c2 = false) :
    extractVals a b c s = extractVals a b c2 s := by
  simp [extractVals, hc, hc2]

theorem extractVals_congr_s {s s2 : Json} (a b c : Json)
    (hs : isTruthy s = false) (hs2 : isTruthy s2 = false) :
    extractVals a b c s = extractVals a b c s2 := by
  simp [extractVals, pyOr, hs, hs2]

theorem chunksGo_flatten {α : Type} (w : ℕ) (hw : 1 ≤ w) :
    ∀ (fuel : ℕ) (l : List α), l.length ≤ fuel → (chunksGo w fuel l).flatten = l := by
  intro fuel
  induction fuel with
  | zero =>
    intro l hl
    cases l with
    | nil => rfl
    | cons x xs => simp at hl
  | succ fuel ih =>
    intro l hl
    cases l with
    | nil => rfl
    | cons x xs =>
      show ((x :: xs).take w :: chunksGo w fuel ((x :: xs).drop w)).flatten = x :: xs
      rw [List.flatten_cons,
        ih _ (by simp only [List.length_drop, List.length_cons] at hl ⊢; omega),
        List.take_append_drop]

theorem chunksGo_length {α : Type} (w : ℕ) (hw : 1 ≤ w) :
    ∀ (fuel : ℕ) (l : List α), l.length ≤ fuel →
      (chunksGo w fuel l).length = (l.length + w - 1) / w := by
  intro fuel
  induction fuel with
  | zero =>
    intro l hl
    cases l with
    | nil =>
      simp only [List.length_nil]
      rw [Nat.div_eq_of_lt (by omega)]
      rfl
    | cons x xs => simp at hl
  | succ fuel ih =>
    intro l hl
    cases l with
    | nil =>
      simp only [List.length_nil]
      rw [Nat.div_eq_of_lt (by omega)]
      rfl
    | cons x xs =>
      show (((x :: xs).take w :: chunksGo w fuel ((x :: xs).drop w))).length
        = ((x :: xs).length + w - 1) / w
      rw [List.length_cons,
        ih _ (by simp only [List.length_drop, List.length_cons] at hl ⊢; omega)]
      simp only [List.length_drop, List.length_cons]
      by_cases hnw : xs.length + 1 ≤ w
      · have h0 : xs.length + 1 - w = 0 := by omega
        rw [h0, Nat.div_eq_of_lt (by omega)]
        have h2 : (xs.length + 1 + w - 1) / w = 1 :=
          Nat.div_eq_of_lt_le (by omega) (by omega)
        omega
      · have heq : xs.length + 1 + w - 1 = (xs.length + 1 - w + w - 1) + w := by omega
        rw [heq, Nat.add_div_right _ (by omega)]

theorem foldl_append_eq_bind {β γ : Type} (f : β → List γ) :
    ∀ (l : List β) (acc : List γ),
      l.foldl (fun a b => a ++ f b) acc = acc ++ l.flatMap f := by
  intro l
  induction l with
  | nil => intro acc; simp
  | cons x l ih =>
    intro acc
    simp only [List.foldl_cons, List.flatMap_cons, ih, List.append_assoc]

theorem buildRoster_eq_bind (plan : List (String × ℕ)) :
    buildRoster plan
      = plan.flatMap (fun pc => (List.range' 1 pc.2).map (fun i => segment_id pc.1 i)) := by
  simpa [buildRoster] using
    foldl_append_eq_bind
      (fun pc : String × ℕ => (List.range' 1 pc.2).map (fun i => segment_id pc.1 i)) plan []

theorem buildRoster_length (plan : List (String × ℕ)) :
    (buildRoster plan).length = (plan.map Prod.snd).sum := by
  rw [buildRoster_eq_bind]
  induction plan with
  | nil => rfl
  | cons pc plan ih => simp [List.flatMap_cons, ih]

theorem rosterAttrs_eq_map {σ α : Type} (sha256hex : String → String)
    (init : ℕ → σ) (sample : σ → α × σ) (plan : List (String × ℕ)) :
    rosterAttrs sha256hex init sample plan
      = (buildRoster plan).map
          (fun pid => (pid, attributesFor sha256hex init sample pid)) := by
  rw [buildRoster_eq_bind]
  have h := foldl_append_eq_bind
    (fun pc : String × ℕ => (List.range' 1 pc.2).map (fun i =>
      (segment_id pc.1 i,
        (sample (init (_rand_for sha256hex (segment_id pc.1 i)))).1))) plan []
  simp only [rosterAttrs]
  rw [h]
  simp only [List.map_flatMap, List.map_map]
  rfl

theorem insertDesc_perm (x : ℕ × ℚ) (l : List (ℕ × ℚ)) :
    (insertDesc x l).Perm (x :: l) := by
  induction l with
  | nil => exact List.Perm.refl _
  | cons y ys ih =>
    by_cases h : y.2 < x.2
    · simp [insertDesc, h]
    · simp only [insertDesc, if_neg h]
      exact (ih.cons y).trans (List.Perm.swap x y ys)

theorem sortDesc_aux_perm :
    ∀ (l acc : List (ℕ × ℚ)),
      (l.foldl (fun acc x => insertDesc x acc) acc).Perm (acc ++ l) := by
  intro l
  induction l with
  | nil => intro acc; simp
  | cons x xs ih =>
    intro acc
    refine (ih (insertDesc x acc)).trans ?_
    refine (List.Perm.append_right xs (insertDesc_perm x acc)).trans ?_
    exact List.perm_middle.symm

theorem sortDesc_perm (l : List (ℕ × ℚ)) : (sortDesc l).Perm l := by
  simpa [sortDesc] using sortDesc_aux_perm l []

theorem sum_set_inc : ∀ (cs : List ℕ) (i : ℕ), i < cs.length →
    (cs.set i (cs.getD i 0 + 1)).sum = cs.sum + 1 := by
  intro cs
  induction cs with
  | nil => intro i hi; simp at hi
  | cons c cs ih =>
    intro i hi
    cases i with
    | zero =>
      simp only [List.getD_cons_zero, List.set_cons_zero, List.sum_cons]
      omega
    | succ i =>
      have hi2 : i < cs.length := by simp at hi; omega
      simp only [List.getD_cons_succ, List.set_cons_succ, List.sum_cons, ih i hi2]
      omega

theorem incrByOne_length : ∀ (sel : List ℕ) (cs : List ℕ),
    (incrByOne sel cs).length = cs.length := by
  intro sel
  induction sel with
  | nil => intro cs; rfl
  | cons i sel ih =>
    intro cs
    calc (incrByOne (i :: sel) cs).length
        = (incrByOne sel (cs.set i (cs.getD i 0 + 1))).length := rfl
      _ = (cs.set i (cs.getD i 0 + 1)).length := ih _
      _ = cs.length := by simp

theorem incrByOne_sum : ∀ (sel : List ℕ) (cs : List ℕ),
    (∀ i ∈ sel, i < cs.length) →
    (incrByOne sel cs).sum = cs.sum + sel.length := by
  intro sel
  induction sel with
  | nil => intro cs _; simp [incrByOne]
  | cons i sel ih =>
    intro cs h
    have hi : i < cs.length := h i (by simp)
    calc (incrByOne (i :: sel) cs).sum
        = (incrByOne sel (cs.set i (cs.getD i 0 + 1))).sum := rfl
      _ = (cs.set i (cs.getD i 0 + 1)).sum + sel.length := by
          apply ih
          intro j hj
          simp only [List.length_set]
          exact h j (by simp [hj])
      _ = cs.sum + 1 + sel.length := by rw [sum_set_inc cs i hi]
      _ = cs.sum + (i :: sel).length := by simp; omega

theorem floorNat_cast_le (e : ℚ) (he : 0 ≤ e) : (((⌊e⌋).toNat : ℕ) : ℚ) ≤ e := by
  have h0 : (0 : ℤ) ≤ ⌊e⌋ := Int.floor_nonneg.2 he
  have h1 : (((⌊e⌋).toNat : ℕ) : ℤ) = ⌊e⌋ := Int.toNat_of_nonneg h0
  have h2 : ((⌊e⌋ : ℤ) : ℚ) ≤ e := Int.floor_le e
  rw [← h1] at h2
  exact_mod_cast h2

theorem lt_floorNat_add_one (e : ℚ) (he : 0 ≤ e) : e < (((⌊e⌋).toNat : ℕ) : ℚ) + 1 := by
  have h0 : (0 : ℤ) ≤ ⌊e⌋ := Int.floor_nonneg.2 he
  have h1 : (((⌊e⌋).toNat : ℕ) : ℤ) = ⌊e⌋ := Int.toNat_of_nonneg h0
  have h2 : e < ((⌊e⌋ : ℤ) : ℚ) + 1 := Int.lt_floor_add_one e
  rw [← h1] at h2
  exact_mod_cast h2

theorem floors_sum_le (l : List ℚ) (h : ∀ e ∈ l, 0 ≤ e) :
    (((l.map (fun e => (⌊e⌋).toNat)).sum : ℕ) : ℚ) ≤ l.sum := by
  induction l with
  | nil => simp
  | cons e l ih =>
    have he : 0 ≤ e := h e (by simp)
    have hl : ∀ x ∈ l, 0 ≤ x := fun x hx => h x (by simp [hx])
    simp only [List.map_cons, List.sum_cons, Nat.cast_add]
    exact add_le_add (floorNat_cast_le e he) (ih hl)

theorem sum_le_floors_add (l : List ℚ) (h : ∀ e ∈ l, 0 ≤ e) :
    l.sum ≤ (((l.map (fun e => (⌊e⌋).toNat)).sum : ℕ) : ℚ) + l.length := by
  induction l with
  | nil => simp
  | cons e l ih =>
    have he : 0 ≤ e := h e (by simp)
    have hl : ∀ x ∈ l, 0 ≤ x := fun x hx => h x (by simp [hx])
    simp only [List.map_cons, List.sum_cons, Nat.cast_add, List.length_cons]
    have h1 := (lt_floorNat_add_one e he).le
    have h2 := ih hl
    push_cast
    push_cast at h1 h2
    linarith

theorem exacts_sum (cats : List (String × ℚ)) (total : ℕ) :
    (cats.map (fun c => (total : ℚ) * c.2)).sum = (total : ℚ) * (cats.map Prod.snd).sum := by
  induction cats with
  | nil => simp
  | cons c cats ih => simp [List.map_cons, List.sum_cons, ih, mul_add]

theorem allocate_sums (cats : List (String × ℚ)) (total : ℕ)
    (hp : ∀ c ∈ cats, 0 ≤ c.2) (hs : (cats.map Prod.snd).sum = 1) :
    ((allocate cats total).map Prod.snd).sum = total := by
  simp only [allocate]
  set exacts := cats.map (fun c => (total : ℚ) * c.2) with hex
  set floors := exacts.map (fun e => (⌊e⌋).toNat) with hfl
  set remaining := total - floors.sum with hrm
  set rems := exacts.map (fun e => e - ((⌊e⌋).toNat : ℚ)) with hrms
  set sorted := sortDesc ((List.range cats.length).zip rems) with hsrt
  set selected := (sorted.take remaining).map Prod.fst with hsel
  have hex_nonneg : ∀ e ∈ exacts, 0 ≤ e := by
    intro e he
    rw [hex] at he
    obtain ⟨c, hc, rfl⟩ := List.mem_map.1 he
    exact mul_nonneg (by positivity) (hp c hc)
  have hex_sum : exacts.sum = (total : ℚ) := by
    rw [hex, exacts_sum, hs, mul_one]
  have hlen_ex : exacts.length = cats.length := by simp [hex]
  have hlen_fl : floors.length = cats.length := by simp [hfl, hlen_ex]
  have halloc_le : floors.sum ≤ total := by
    have h := floors_sum_le exacts hex_nonneg
    rw [hex_sum, ← hfl] at h
    exact_mod_cast h
  have hub : total ≤ floors.sum + cats.length := by
    have h := sum_le_floors_add exacts hex_nonneg
    rw [hex_sum, ← hfl, hlen_ex] at h
    exact_mod_cast h
  have hrem_le : remaining ≤ cats.length := by omega
  have hlen_rems : rems.length = cats.length := by simp [hrms, hlen_ex]
  have hperm := sortDesc_perm ((List.range cats.length).zip rems)
  have hlen_sorted : sorted.length = cats.length := by
    rw [hsrt, hperm.length_eq, List.length_zip, List.length_range, hlen_rems, min_self]
  have hsel_len : selected.length = remaining := by
    rw [hsel, List.length_map, List.length_take, hlen_sorted]
    omega
  have hsel_lt : ∀ i ∈ selected, i < floors.length := by
    intro i hi
    rw [hsel] at hi
    obtain ⟨p, hp2, rfl⟩ := List.mem_map.1 hi
    have hp3 : p ∈ sorted := List.mem_of_mem_take hp2
    rw [hsrt] at hp3
    have hp4 := hperm.mem_iff.1 hp3
    rcases p with ⟨i, r⟩
    have hp5 := List.of_mem_zip hp4
    rw [hlen_fl]
    exact List.mem_range.1 hp5.1
  have hzip : ((cats.map Prod.fst).zip (incrByOne selected floors)).map Prod.snd
      = incrByOne selected floors := by
    apply List.map_snd_zip
    rw [incrByOne_length, hlen_fl, List.length_map]
  rw [hzip, incrByOne_sum selected floors hsel_lt, hsel_len]
  omega

/-- C1 (amended): for every category list with non-negative proportions
summing to 1 and every total, the largest-remainder Allocator returns
non-negative counts summing exactly to the total, handing leftover units to
the largest fractional remainders with ties broken by input order; in
particular proportions a = 1/2, b = 3/10, c = 1/5 with total 7 give
a = 4, b = 2, c = 1.  (Without the unit-sum condition the counts can
undershoot the total, see the counterexample.) -/
theorem allocate_totals (cats : List (String × ℚ)) (total : ℕ)
    (hp : ∀ c ∈ cats, 0 ≤ c.2) (hs : (cats.map Prod.snd).sum = 1) :
    (∀ x ∈ allocate cats total, 0 ≤ x.2)
    ∧ ((allocate cats total).map Prod.snd).sum = total
    ∧ allocate [("a", (1 : ℚ)/2), ("b", (3 : ℚ)/10), ("c", (1 : ℚ)/5)] 7
        = [("a", 4), ("b", 2), ("c", 1)] :=
  ⟨fun x _ => Nat.zero_le x.2, allocate_sums cats total hp hs,
    by with_unfolding_all decide⟩

/-- C1 witness: the hypotheses of `allocate_totals` hold at the spec's own
example, and the allocation sums to the total there. -/
theorem allocate_totals_witness :
    ((∀ c ∈ [("a", (1 : ℚ)/2), ("b", (3 : ℚ)/10), ("c", (1 : ℚ)/5)], 0 ≤ c.2)
      ∧ (([("a", (1 : ℚ)/2), ("b", (3 : ℚ)/10), ("c", (1 : ℚ)/5)].map Prod.snd).sum = 1))
    ∧ ((allocate [("a", (1 : ℚ)/2), ("b", (3 : ℚ)/10), ("c", (1 : ℚ)/5)] 7).map
        Prod.snd).sum = 7 :=
  ⟨⟨by with_unfolding_all decide, by with_unfolding_all decide⟩,
    (allocate_totals [("a", (1 : ℚ)/2), ("b", (3 : ℚ)/10), ("c", (1 : ℚ)/5)] 7
      (by with_unfolding_all decide) (by with_unfolding_all decide)).2.1⟩

/-- C1 counterexample: the claim as stated quantifies over every
non-negative proportion list; for the single category a with proportion 0
(non-negative) and total 2, the largest-remainder pass hands out at most
one unit per category, so the counts sum to 1, not 2. -/
theorem allocate_totals_counterexample :
    (∀ c ∈ [("a", (0 : ℚ))], 0 ≤ c.2)
    ∧ ((allocate [("a", (0 : ℚ))] 2).map Prod.snd).sum = 1
    ∧ ((allocate [("a", (0 : ℚ))] 2).map Prod.snd).sum ≠ 2 := by
  refine ⟨?_, ?_, ?_⟩ <;> with_unfolding_all decide

/-- C2: the Wave Scheduler partitions any ordered unit sequence into
ceil(N/waveSize) waves preserving input order (their concatenation is the
input, so the total number of units processed equals N); in particular 13
units with wave size 6 give exactly 3 waves of sizes 6, 6, 1. -/
theorem chunks_partition {α : Type} (units : List α) (w : ℕ) (hw : 1 ≤ w) :
    ((chunks w units).flatten = units
      ∧ (chunks w units).length = (units.length + w - 1) / w)
    ∧ ((chunks 6 (List.range 13)).map List.length = [6, 6, 1]
      ∧ (chunks 6 (List.range 13)).length = 3
      ∧ (chunks 6 (List.range 13)).flatten.length = 13) :=
  ⟨⟨chunksGo_flatten w hw units.length units (Nat.le_refl _),
    chunksGo_length w hw units.length units (Nat.le_refl _)⟩,
   by decide, by decide, by decide⟩

/-- C2 witness: the partition facts instantiated at the claim's example,
13 units with wave size 6. -/
theorem chunks_partition_witness :
    (1 ≤ 6)
    ∧ ((chunks 6 (List.range 13)).flatten = List.range 13
      ∧ (chunks 6 (List.range 13)).length = (13 + 6 - 1) / 6) :=
  ⟨by decide, ⟨(chunks_partition (List.range 13) 6 (by decide)).1.1,
    by simpa using (chunks_partition (List.range 13) 6 (by decide)).1.2⟩⟩

/-- C3 (amended): when session creation succeeds and step 2 (list eval
sets) fails, steps 3, 4 and 5 are still attempted and their records (the
success key or the error key of each) appear in the returned log together
with the step-2 error record — but the overall status field is plain
"ok": the status only ever reflects a step-1 failure. -/
theorem step2_failure_rest_continue (env : Step → Except String Json)
    (nm : Option Json) (st : Option Bool) (a u : String)
    (j sid : Json) (e : String)
    (h1 : env Step.createSession = Except.ok j)
    (hx : extract_session_id (pyOr j (Json.obj [])) = Except.ok sid)
    (h2 : env Step.evalSets = Except.error e) :
    ∃ res tr, simulate_flow env nm st a u = Except.ok (res, tr)
      ∧ res.lookup "eval_sets_error" = some (Json.str e)
      ∧ ((res.lookup "eval_results").isSome ∨ (res.lookup "eval_results_error").isSome)
      ∧ ((res.lookup "list_sessions").isSome ∨ (res.lookup "list_sessions_error").isSome)
      ∧ ((res.lookup "run_sse").isSome ∨ (res.lookup "run_sse_error").isSome)
      ∧ tr.map Attempt.step = [Step.createSession, Step.evalSets, Step.evalResults,
          Step.listSessions, Step.runSse]
      ∧ res.lookup "status" = some (Json.str "ok") := by
  unfold simulate_flow
  rw [h1]
  dsimp only
  rw [hx]
  dsimp only
  rw [h2]
  rcases h3 : env Step.evalResults with e3 | r3 <;>
    rcases h4 : env Step.listSessions with e4 | r4 <;>
    rcases h5 : env Step.runSse with e5 | r5 <;>
    exact ⟨_, _, rfl, by simp [setdefault, List.lookup], by simp [setdefault, List.lookup],
      by simp [setdefault, List.lookup], by simp [setdefault, List.lookup], rfl,
      by simp [setdefault, List.lookup]⟩

/-- C3 witness: the hypotheses of `step2_failure_rest_continue` hold for the
concrete environment `envC3`, and so does its conclusion there. -/
theorem step2_failure_rest_continue_witness :
    (envC3 Step.createSession = Except.ok (Json.obj [("id", Json.str "sess-42")])
      ∧ extract_session_id (pyOr (Json.obj [("id", Json.str "sess-42")]) (Json.obj []))
          = Except.ok (Json.str "sess-42")
      ∧ envC3 Step.evalSets = Except.error "connection refused")
    ∧ (∃ res tr, simulate_flow envC3 none none "multi-persona-agent" "user"
          = Except.ok (res, tr)
        ∧ res.lookup "eval_sets_error" = some (Json.str "connection refused")
        ∧ ((res.lookup "eval_results").isSome ∨ (res.lookup "eval_results_error").isSome)
        ∧ ((res.lookup "list_sessions").isSome ∨ (res.lookup "list_sessions_error").isSome)
        ∧ ((res.lookup "run_sse").isSome ∨ (res.lookup "run_sse_error").isSome)
        ∧ tr.map Attempt.step = [Step.createSession, Step.evalSets, Step.evalResults,
            Step.listSessions, Step.runSse]
        ∧ res.lookup "status" = some (Json.str "ok")) :=
  ⟨⟨rfl, rfl, rfl⟩,
    step2_failure_rest_continue envC3 none none "multi-persona-agent" "user"
      (Json.obj [("id", Json.str "sess-42")]) (Json.str "sess-42")
      "connection refused" rfl rfl rfl⟩

/-- C3 counterexample: in a run where session creation succeeded and step 2
raised, the returned results carry the step-2 error record yet the overall
status field is the plain "ok", contradicting the claim that the status
reflects at least one step error. -/
theorem step2_failure_status_counterexample :
    (simulate_flow envC3 none none "multi-persona-agent" "user").map
        (fun r => (r.1.lookup "eval_sets_error", r.1.lookup "status"))
      = Except.ok (some (Json.str "connection refused"), some (Json.str "ok")) := rfl

/-- C4: whenever session creation raises, the simulator records the step-1
error, sets status to partial_failure, and returns at once: the only
attempted call is the session creation itself, steps 2-5 are never
issued. -/
theorem step1_failure_aborts (env : Step → Except String Json)
    (nm : Option Json) (st : Option Bool) (a u : String) (e : String)
    (h : env Step.createSession = Except.error e) :
    simulate_flow env nm st a u
      = Except.ok ([("create_session_error", Json.str e),
                    ("status", Json.str "partial_failure")],
                   [Attempt.mk Step.createSession (some (Json.obj []))]) := by
  unfold simulate_flow
  rw [h]

/-- C4 witness: the hypothesis of `step1_failure_aborts` holds for the
concrete environment `envErr`, and so does its conclusion there. -/
theorem step1_failure_aborts_witness :
    (envErr Step.createSession = Except.error "connection error")
    ∧ simulate_flow envErr none none "multi-persona-agent" "user"
        = Except.ok ([("create_session_error", Json.str "connection error"),
                      ("status", Json.str "partial_failure")],
                     [Attempt.mk Step.createSession (some (Json.obj []))]) :=
  ⟨rfl, step1_failure_aborts envErr none none "multi-persona-agent" "user"
    "connection error" rfl⟩

/-- C5 (amended): for every object-shaped session-creation response whose
"session" field is absent, falsy, or itself an object, the extracted
session identifier is the first truthy value among the keys session_id,
sessionId, id and the nested session.id, in that order, and the fixed
default identifier when none yields a value.  (A truthy non-object
"session" value instead makes the lookup raise, see the
counterexample.) -/
theorem session_id_extraction_order (fs : List (String × Json))
    (hs : isTruthy (pyGet (Json.obj fs) "session") = false
      ∨ ∃ gs, pyGet (Json.obj fs) "session" = Json.obj gs) :
    extract_session_id (Json.obj fs) = Except.ok (spec_extract_session_id (Json.obj fs)) := by
  rw [extract_session_id_obj,
    extractVals_eq_spec (pyGet (Json.obj fs) "session_id") (pyGet (Json.obj fs) "sessionId")
      (pyGet (Json.obj fs) "id") (pyGet (Json.obj fs) "session") hs]
  rfl

/-- C5 witness: the hypothesis of `session_id_extraction_order` holds for
the response with only a nested session object, and there the extraction
returns the nested session.id. -/
theorem session_id_extraction_order_witness :
    (isTruthy (pyGet (Json.obj [("session", Json.obj [("id", Json.str "n1")])]) "session")
        = false
      ∨ ∃ gs, pyGet (Json.obj [("session", Json.obj [("id", Json.str "n1")])]) "session"
          = Json.obj gs)
    ∧ extract_session_id (Json.obj [("session", Json.obj [("id", Json.str "n1")])])
        = Except.ok (spec_extract_session_id
            (Json.obj [("session", Json.obj [("id", Json.str "n1")])]))
    ∧ spec_extract_session_id (Json.obj [("session", Json.obj [("id", Json.str "n1")])])
        = Json.str "n1" :=
  ⟨Or.inr ⟨[("id", Json.str "n1")], rfl⟩,
    session_id_extraction_order [("session", Json.obj [("id", Json.str "n1")])]
      (Or.inr ⟨[("id", Json.str "n1")], rfl⟩),
    rfl⟩

/-- C5 counterexample: for the response object whose "session" field is the
truthy non-object "oops", the three flat keys are absent and the nested
access raises AttributeError, so the extraction neither falls back to the
default identifier nor returns any value. -/
theorem session_id_extraction_counterexample :
    extract_session_id (Json.obj [("session", Json.str "oops")]) = Except.error ()
    ∧ Except.error () ≠ Except.ok (Json.str "default-session") :=
  ⟨rfl, by simp⟩

/-- C6 (amended): for every run that reaches step 5, the step-5 request body
carries a sessionId field equal to the identifier extracted from the step-1
response, and the newMessage field is the caller's new_message when that is
supplied and non-empty (truthy), the fixed placeholder otherwise.  (A
supplied but empty new_message object falls back to the placeholder, see
the counterexample.) -/
theorem run_sse_body_fields (env : Step → Except String Json)
    (nm : Option Json) (st : Option Bool) (a u : String) (j sid : Json)
    (h1 : env Step.createSession = Except.ok j)
    (hx : extract_session_id (pyOr j (Json.obj [])) = Except.ok sid) :
    ∃ res body, simulate_flow env nm st a u = Except.ok (res,
        [Attempt.mk Step.createSession (some (Json.obj [])),
         Attempt.mk Step.evalSets none,
         Attempt.mk Step.evalResults none,
         Attempt.mk Step.listSessions none,
         Attempt.mk Step.runSse (some body)])
      ∧ pyGet body "sessionId" = sid
      ∧ pyGet body "newMessage" = (match nm with
          | some m => if isTruthy m then m else default_new_message
          | none => default_new_message) := by
  unfold simulate_flow
  rw [h1]
  dsimp only
  rw [hx]
  dsimp only
  rcases h2 : env Step.evalSets with e2 | r2 <;>
    rcases h3 : env Step.evalResults with e3 | r3 <;>
    rcases h4 : env Step.listSessions with e4 | r4 <;>
    rcases h5 : env Step.runSse with e5 | r5 <;>
    exact ⟨_, _, rfl, by simp [pyGet, List.lookup], by simp [pyGet, List.lookup]⟩

/-- C6 witness: the hypotheses of `run_sse_body_fields` hold for the
concrete environment `envOK` whose step-1 response is the object with id
"sess-42", and there the step-5 body carries sessionId "sess-42" and the
placeholder message. -/
theorem run_sse_body_fields_witness :
    (envOK Step.createSession = Except.ok (Json.obj [("id", Json.str "sess-42")])
      ∧ extract_session_id (pyOr (Json.obj [("id", Json.str "sess-42")]) (Json.obj []))
          = Except.ok (Json.str "sess-42"))
    ∧ (∃ res body, simulate_flow envOK none none "multi-persona-agent" "user"
          = Except.ok (res,
            [Attempt.mk Step.createSession (some (Json.obj [])),
             Attempt.mk Step.evalSets none,
             Attempt.mk Step.evalResults none,
             Attempt.mk Step.listSessions none,
             Attempt.mk Step.runSse (some body)])
        ∧ pyGet body "sessionId" = Json.str "sess-42"
        ∧ pyGet body "newMessage" = (match (none : Option Json) with
            | some m => if isTruthy m then m else default_new_message
            | none => default_new_message)) :=
  ⟨⟨rfl, rfl⟩,
    run_sse_body_fields envOK none none "multi-persona-agent" "user"
      (Json.obj [("id", Json.str "sess-42")]) (Json.str "sess-42") rfl rfl⟩

/-- C6 counterexample: the caller supplies the new_message object with no
fields; the step-5 body nevertheless carries the fixed placeholder message,
not the caller's message, because the source tests the payload for Python
truthiness rather than for presence. -/
theorem run_sse_new_message_counterexample :
    (simulate_flow envOK (some (Json.obj [])) none "multi-persona-agent" "user").map
        (fun r => r.2.map (fun q => q.body))
      = Except.ok [some (Json.obj []), none, none, none,
          some (Json.obj [("appName", Json.str "multi-persona-agent"),
            ("userId", Json.str "user"),
            ("sessionId", Json.str "sess-42"),
            ("newMessage", default_new_message),
            ("streaming", Json.bool false)])]
    ∧ default_new_message ≠ Json.obj [] :=
  ⟨rfl, by simp [default_new_message]⟩

/-- C7: for every allocation plan, the roster loop produces exactly
sum(counts) descriptors, in category order and then index order 1..count
within each category, the descriptor for index i of category c having the
id c ++ "_" ++ i with a 1-based index. -/
theorem roster_descriptor_ids (plan : List (String × ℕ)) :
    (buildRoster plan).length = (plan.map Prod.snd).sum
    ∧ buildRoster plan
        = plan.flatMap (fun pc => (List.range' 1 pc.2).map (fun i => segment_id pc.1 i)) :=
  ⟨buildRoster_length plan, buildRoster_eq_bind plan⟩

/-- C8: attribute generation is a deterministic function of the descriptor
id alone: the roster loop, which reseeds a fresh generator from each id
(a hash of the id truncated to a fixed-width integer seed) and discards
the generator state afterwards, equals the pointwise map of the pure
per-id attribute function over the ids — for every seeding hash and every
sampler — and consequently any two generated entries with the same id
carry identical attribute values. -/
theorem roster_attrs_deterministic {σ α : Type} (sha256hex : String → String)
    (init : ℕ → σ) (sample : σ → α × σ) (plan : List (String × ℕ)) :
    rosterAttrs sha256hex init sample plan
      = (buildRoster plan).map
          (fun pid => (pid, attributesFor sha256hex init sample pid))
    ∧ ∀ p q, p ∈ rosterAttrs sha256hex init sample plan →
        q ∈ rosterAttrs sha256hex init sample plan → p.1 = q.1 → p.2 = q.2 := by
  refine ⟨rosterAttrs_eq_map sha256hex init sample plan, ?_⟩
  intro p q hp hq hpq
  rw [rosterAttrs_eq_map sha256hex init sample plan] at hp hq
  obtain ⟨pid, _, rfl⟩ := List.mem_map.1 hp
  obtain ⟨qid, _, rfl⟩ := List.mem_map.1 hq
  simp only at hpq ⊢
  rw [hpq]

/-- C8 witness: the same-id consequence of `roster_attrs_deterministic`
applied at a concrete seeding function, sampler and plan. -/
theorem roster_attrs_deterministic_witness :
    (("t_1", 171) ∈ rosterAttrs (fun _ => "ab") (fun n : ℕ => n)
        (fun s : ℕ => (s, s + 1)) [("t", 2)]
      ∧ ("t_2", 171) ∈ rosterAttrs (fun _ => "ab") (fun n : ℕ => n)
        (fun s : ℕ => (s, s + 1)) [("t", 2)])
    ∧ (171 : ℕ) = 171 :=
  ⟨⟨by with_unfolding_all decide, by with_unfolding_all decide⟩,
    (roster_attrs_deterministic (fun _ => "ab") (fun n : ℕ => n)
      (fun s : ℕ => (s, s + 1)) [("t", 2)]).2 ("t_1", 171) ("t_1", 171)
      (by with_unfolding_all decide) (by with_unfolding_all decide) rfl⟩

/-- C9: the module-level roster is a fixed constant: it holds exactly 50
descriptors drawn from exactly 12 hard-coded persona types with per-type
counts 5, 5 and ten times 4, with no input of any kind. -/
theorem roster_fixed_constant :
    roster_ids.length = 50
    ∧ PERSONA_TYPE_COUNTS.length = 12
    ∧ PERSONA_TYPE_COUNTS.map Prod.snd = [5, 5, 4, 4, 4, 4, 4, 4, 4, 4, 4, 4] := by
  refine ⟨?_, ?_, ?_⟩ <;> decide

/-- C10: a candidate key of the session-id extraction that is present but
bound to a falsy value is skipped exactly as if the key were absent:
removing every binding of that key from the response object leaves the
extraction result unchanged. -/
theorem falsy_candidate_skipped (fs : List (String × Json)) (k : String)
    (hk : k ∈ ["session_id", "sessionId", "id", "session"])
    (hf : isTruthy (pyGet (Json.obj fs) k) = false) :
    extract_session_id (Json.obj fs) = extract_session_id (Json.obj (eraseKey k fs)) := by
  simp only [List.mem_cons, List.not_mem_nil, or_false] at hk
  rcases hk with rfl | rfl | rfl | rfl
  · rw [extract_session_id_obj, extract_session_id_obj, pyGet_eraseKey_self,
      pyGet_eraseKey_ne _ "sessionId" (by decide), pyGet_eraseKey_ne _ "id" (by decide),
      pyGet_eraseKey_ne _ "session" (by decide)]
    exact extractVals_congr_a _ _ _ hf rfl
  · rw [extract_session_id_obj, extract_session_id_obj, pyGet_eraseKey_self,
      pyGet_eraseKey_ne _ "session_id" (by decide), pyGet_eraseKey_ne _ "id" (by decide),
      pyGet_eraseKey_ne _ "session" (by decide)]
    exact extractVals_congr_b _ _ _ hf rfl
  · rw [extract_session_id_obj, extract_session_id_obj, pyGet_eraseKey_self,
      pyGet_eraseKey_ne _ "session_id" (by decide), pyGet_eraseKey_ne _ "sessionId" (by decide),
      pyGet_eraseKey_ne _ "session" (by decide)]
    exact extractVals_congr_c _ _ _ hf rfl
  · rw [extract_session_id_obj, extract_session_id_obj, pyGet_eraseKey_self,
      pyGet_eraseKey_ne _ "session_id" (by decide), pyGet_eraseKey_ne _ "sessionId" (by decide),
      pyGet_eraseKey_ne _ "id" (by decide)]
    exact extractVals_congr_s _ _ _ hf rfl

/-- C10 witness: the hypotheses of `falsy_candidate_skipped` hold for the
response binding session_id to the empty string, and there the extraction
falls through to the default identifier rather than returning the empty
string. -/
theorem falsy_candidate_skipped_witness :
    (("session_id" : String) ∈ ["session_id", "sessionId", "id", "session"]
      ∧ isTruthy (pyGet (Json.obj [("session_id", Json.str "")]) "session_id") = false)
    ∧ extract_session_id (Json.obj [("session_id", Json.str "")])
        = extract_session_id (Json.obj (eraseKey "session_id" [("session_id", Json.str "")]))
    ∧ extract_session_id (Json.obj [("session_id", Json.str "")])
        = Except.ok (Json.str "default-session") :=
  ⟨⟨by decide, rfl⟩,
    falsy_candidate_skipped [("session_id", Json.str "")] "session_id" (by decide) rfl,
    rfl⟩
